import Mathlib

/-!
Verification of the core operations of EmacsOrgDailyAutoStarter (main.go).

The embedding models:
  - the string helpers from Go's standard library that main.go uses
    (strings.TrimSpace, strings.HasPrefix, strings.Contains),
  - extractSection (main.go 460-484),
  - createDailyNote (main.go 422-458) over an explicit filesystem state,
  - the session-attach retry loop of runDailyWorkflow (main.go 414-418),
  - the daemon stderr scanning loop of runEmacsDaemon (main.go 513-534).
-/

/-- Constant SourceHeader from main.go line 27. -/
def SourceHeader : String := "* For tomorrow"

/-- Constant DestinationHeader from main.go line 28. -/
def DestinationHeader : String := "* TODO"

/-- Constant DoomLoadedMsg from main.go line 33. -/
def DoomLoadedMsg : String := "Doom loaded "

/-- Constant SuccessMsg from main.go line 34. -/
def SuccessMsg : String := "Success"

/-- Constant DateFormat from main.go line 25: Go layout producing YYYY-MM-DD. -/
def DateFormat : String := "2006-01-02"

/-- Constant FileExtension from main.go line 26. -/
def FileExtension : String := ".org"

/-- Go's unicode.IsSpace on a rune, by code point: the characters
strings.TrimSpace strips. -/
def goIsSpace (c : Char) : Bool :=
  c.toNat = 0x20 || c.toNat = 0x9 || c.toNat = 0xA || c.toNat = 0xB ||
  c.toNat = 0xC || c.toNat = 0xD || c.toNat = 0x85 || c.toNat = 0xA0 ||
  c.toNat = 0x1680 || (0x2000 ≤ c.toNat && c.toNat ≤ 0x200A) ||
  c.toNat = 0x2028 || c.toNat = 0x2029 || c.toNat = 0x202F ||
  c.toNat = 0x205F || c.toNat = 0x3000

/-- Go's strings.TrimSpace: drop leading and trailing whitespace runes. -/
def goTrimSpace (s : String) : String :=
  String.mk (((s.data.dropWhile goIsSpace).reverse.dropWhile goIsSpace).reverse)

/-- Whether a character list starts with a given pattern list
(pattern first, then the list being tested). -/
def listIsStart : List Char → List Char → Bool
  | [], _ => true
  | _ :: _, [] => false
  | a :: as, b :: bs => a = b && listIsStart as bs

/-- Go's strings.HasPrefix. -/
def goStartsWith (s pat : String) : Bool := listIsStart pat.data s.data

/-- Whether a character list occurs as a contiguous run inside another
(needle first, then haystack). -/
def listHasSub (needle : List Char) : List Char → Bool
  | [] => needle.isEmpty
  | c :: rest => listIsStart needle (c :: rest) || listHasSub needle rest

/-- Go's strings.Contains. -/
def goContains (s sub : String) : Bool := listHasSub sub.data s.data

/-- The scanning loop of extractSection (main.go 470-482).  The Bool is the
capture flag.  A line whose trimmed content equals the target header sets
capture and is consumed (continue); only afterwards does the capture branch
check for a line beginning with the top-level header run, which stops the
scan; every other line seen while capturing is appended verbatim. -/
def scanSection (target : String) : List String → Bool → List String
  | [], _ => []
  | l :: ls, capture =>
    if goTrimSpace l = target then scanSection target ls true
    else if capture then
      if goStartsWith l "* " then [] else l :: scanSection target ls capture
    else scanSection target ls capture

/-- extractSection (main.go 460-484).  The argument is the result of opening
the file: none models os.Open failing (missing or unreadable file), in which
case the Go function returns nil. -/
def extractSection (file : Option (List String)) (targetHeader : String) : List String :=
  match file with
  | none => []
  | some ls => scanSection targetHeader ls false

/-- The note-linkage fields of a Project record (main.go 86-93) that
createDailyNote reads and writes. -/
structure ProjState where
  lastFileCreated : String
  previousFileCreated : String
deriving DecidableEq, Repr

/-- Filesystem state seen by createDailyNote: the readable files (path with
line contents, so os.Stat succeeds exactly on the listed paths) together with
the paths at which os.Create would return an error (permissions, missing
directory). -/
structure FS where
  files : List (String × List String)
  createFails : List String
deriving DecidableEq, Repr

/-- Look a path up in the file listing (first match wins). -/
def fsLookup : List (String × List String) → String → Option (List String)
  | [], _ => none
  | (q, c) :: rest, p => if q = p then some c else fsLookup rest p

/-- Record a freshly created file's contents at a path. -/
def fsWrite (files : List (String × List String)) (p : String) (c : List String) :
    List (String × List String) :=
  (p, c) :: files

/-- The body written under the to-do header (main.go 441-447): the migrated
lines when there are any, otherwise the single empty checkbox placeholder. -/
def noteBody (contentToMigrate : List String) : List String :=
  if contentToMigrate = [] then ["  [ ] "] else contentToMigrate

/-- The full sequence of lines createDailyNote writes (main.go 439-448):
the fmt string ending in two newlines yields the title line plus an empty
line, then the destination header line, the body, an empty line, and the
source header line. -/
def noteLines (date : String) (contentToMigrate : List String) : List String :=
  ["#+TITLE: Daily Note " ++ date, "", DestinationHeader] ++
    noteBody contentToMigrate ++ ["", SourceHeader]

/-- createDailyNote (main.go 422-458).  It first stats yesterdayFile and, when
that succeeds, extracts the SourceHeader section; if todayFile already exists
it returns at once; if os.Create fails it returns at once; otherwise it writes
the note and shifts the linkage fields.  The returned Bool records whether a
file was created (the write branch was taken). -/
def createDailyNote (fs : FS) (todayFile yesterdayFile today : String) (st : ProjState) :
    FS × ProjState × Bool :=
  let contentToMigrate : List String :=
    match fsLookup fs.files yesterdayFile with
    | some _ => extractSection (fsLookup fs.files yesterdayFile) SourceHeader
    | none => []
  match fsLookup fs.files todayFile with
  | some _ => (fs, st, false)
  | none =>
    if todayFile ∈ fs.createFails then (fs, st, false)
    else
      ({ files := fsWrite fs.files todayFile (noteLines today contentToMigrate),
         createFails := fs.createFails },
       { lastFileCreated := todayFile, previousFileCreated := st.lastFileCreated },
       true)

/-- One step of the attach retry loop in runDailyWorkflow (main.go 415-418):
the fuel is the remaining value of the loop bound (4 - i); each iteration
sleeps DaemonOpenRetryTime seconds and calls openEmacs again.  Results are
(succeeded, attempts made so far, sleeps performed so far). -/
def retryGo (attach : Nat → Bool) : Nat → Bool → Nat → Nat → Bool × Nat × Nat
  | 0, ok, attempts, sleeps => (ok, attempts, sleeps)
  | n + 1, ok, attempts, sleeps =>
    if ok then (ok, attempts, sleeps)
    else retryGo attach n (attach attempts) (attempts + 1) (sleeps + 1)

/-- The session-attach phase of runDailyWorkflow (main.go 414-418): one
initial openEmacs call, then the for-loop with bound 4 retrying while the
attach has not succeeded.  attach n is the outcome of the n-th openEmacs
call (0-based); the result is (succeeded, total attempts, total sleeps). -/
def attachRetryLoop (attach : Nat → Bool) : Bool × Nat × Nat :=
  retryGo attach 4 (attach 0) 1 0

/-- Outcome of runEmacsDaemon: either the unrecovered panic raised when the
log file cannot be created (main.go 514-517), or normal completion carrying
the sequence of messages sent on the return channel by the stderr scanning
loop. -/
inductive DaemonOutcome where
  | panicked : DaemonOutcome
  | finished : List String → DaemonOutcome
deriving DecidableEq, Repr

/-- The messages the stderr scanning loop of runEmacsDaemon (main.go 524-531)
sends on its channel: one SuccessMsg per stderr line containing DoomLoadedMsg
as a substring. -/
def daemonSignals (stderrLines : List String) : List String :=
  (stderrLines.filter fun l => goContains l DoomLoadedMsg).map fun _ => SuccessMsg

/-- runEmacsDaemon (main.go 513-534): it first creates a hard-coded log file
and panics when that fails; otherwise it starts the daemon and scans its
stderr to completion, signalling once per line containing DoomLoadedMsg.
logCreateOk is whether os.Create of the log file succeeds; stderrLines is the
finite diagnostic stream read from the daemon process. -/
def runEmacsDaemon (logCreateOk : Bool) (stderrLines : List String) : DaemonOutcome :=
  if logCreateOk then DaemonOutcome.finished (daemonSignals stderrLines)
  else DaemonOutcome.panicked

/-- The seek phase of section extraction: the lines strictly after the first
line whose trimmed content equals the target header, or none when no line
trim-equals it. -/
def dropToMarker (target : String) : List String → Option (List String)
  | [] => none
  | l :: ls => if goTrimSpace l = target then some ls else dropToMarker target ls

/-- Written from the claim's words (C2), to compare with extractSection: the
lines strictly after the first marker line and strictly before the first
subsequent line beginning with the top-level header run, this terminator
applying to ALL top-level headers including further occurrences of the
searched marker itself. -/
def extractSectionClaimed (ls : List String) (target : String) : List String :=
  match dropToMarker target ls with
  | none => []
  | some rest => rest.takeWhile fun l => !(goStartsWith l "* ")

/-- The behaviour extractSection actually has (amended C2): after the first
marker line, capture up to the first line that begins with the top-level
header run AND does not trim-equal the target header; within the captured
run, lines that trim-equal the target header are consumed silently. -/
def extractSectionSpec (ls : List String) (target : String) : List String :=
  match dropToMarker target ls with
  | none => []
  | some rest =>
    (rest.takeWhile fun l => !(goStartsWith l "* " && !(decide (goTrimSpace l = target)))).filter
      fun l => !(decide (goTrimSpace l = target))

/-- Written from the claim's words (C4), to compare with the lines
createDailyNote writes: title line, to-do marker line, migrated lines or one
placeholder line, a blank line, and the unfinished-work marker line — with
nothing between the title line and the to-do marker. -/
def noteLinesClaimed (date : String) (contentToMigrate : List String) : List String :=
  ["#+TITLE: Daily Note " ++ date, DestinationHeader] ++
    noteBody contentToMigrate ++ ["", SourceHeader]

lemma scanSection_capture_eq (target : String) :
    ∀ ls : List String,
      scanSection target ls true =
        (ls.takeWhile fun l =>
            !(goStartsWith l "* " && !(decide (goTrimSpace l = target)))).filter
          fun l => !(decide (goTrimSpace l = target)) := by
  intro ls
  induction ls with
  | nil => rfl
  | cons l ls ih =>
    by_cases h : goTrimSpace l = target
    · simp [scanSection, h, List.takeWhile_cons, List.filter_cons, ih]
    · by_cases h2 : goStartsWith l "* " = true
      · simp [scanSection, h, h2, List.takeWhile_cons]
      · simp [scanSection, h, h2, List.takeWhile_cons, List.filter_cons, ih]

lemma scanSection_seek_eq (target : String) :
    ∀ ls : List String,
      scanSection target ls false =
        (match dropToMarker target ls with
         | none => []
         | some rest => scanSection target rest true) := by
  intro ls
  induction ls with
  | nil => rfl
  | cons l ls ih =>
    by_cases h : goTrimSpace l = target
    · simp [scanSection, dropToMarker, h]
    · simp [scanSection, dropToMarker, h, ih]

lemma scanSection_true_append_clean (target : String) :
    ∀ (a rest : List String),
      (∀ l ∈ a, goTrimSpace l ≠ target ∧ goStartsWith l "* " = false) →
      scanSection target (a ++ rest) true = a ++ scanSection target rest true := by
  intro a rest ha
  induction a with
  | nil => rfl
  | cons l a ih =>
    have h1 := (ha l (by simp)).1
    have h2 := (ha l (by simp)).2
    have ih2 := ih (fun x hx => ha x (by simp [hx]))
    simp [scanSection, h1, h2, ih2]

lemma scanSection_true_marker_skip (target mk : String) (rest : List String)
    (h : goTrimSpace mk = target) :
    scanSection target (mk :: rest) true = scanSection target rest true := by
  simp [scanSection, h]

lemma scanSection_true_header_stop (target hdr : String) (rest : List String)
    (h1 : goStartsWith hdr "* " = true) (h2 : goTrimSpace hdr ≠ target) :
    scanSection target (hdr :: rest) true = [] := by
  simp [scanSection, h1, h2]

/-- Claim C2, counterexample: on a file in which the target marker occurs a
second time with content after it, extractSection does not stop at that
second top-level header line (which the claim's terminator rule would
require): it returns the lines of both runs, not only the first. -/
theorem extractSection_all_headers_counterexample :
    extractSection (some ["* For tomorrow", "- task1", "* For tomorrow", "- task2"])
        "* For tomorrow" = ["- task1", "- task2"]
      ∧ extractSectionClaimed ["* For tomorrow", "- task1", "* For tomorrow", "- task2"]
          "* For tomorrow" = ["- task1"]
      ∧ extractSection (some ["* For tomorrow", "- task1", "* For tomorrow", "- task2"])
          "* For tomorrow" ≠
        extractSectionClaimed ["* For tomorrow", "- task1", "* For tomorrow", "- task2"]
          "* For tomorrow" := by
  refine ⟨by decide, by decide, by decide⟩

/-- Claim C2 (amended): extractSection on a missing file is empty, and on a
readable file it returns the verbatim lines strictly after the first line
trim-equal to the target marker, up to (excluding) the first subsequent line
that begins with the top-level header run AND is not itself trim-equal to the
target marker; lines trim-equal to the marker inside that range are consumed
without being emitted; with no marker line the result is empty. -/
theorem extractSection_characterization :
    ∀ (ls : List String) (target : String),
      extractSection (some ls) target = extractSectionSpec ls target
      ∧ extractSection none target = [] := by
  intro ls target
  constructor
  · show scanSection target ls false = _
    rw [scanSection_seek_eq]
    unfold extractSectionSpec
    cases dropToMarker target ls with
    | none => rfl
    | some rest => exact scanSection_capture_eq target rest
  · rfl

/-- Claim C10: while capturing, a line trim-equal to the target marker is
consumed without being emitted and without ending the capture, so a file in
which the marker occurs twice with no other top-level header between the
occurrences yields the two marker sections concatenated, up to end of file or
up to the first top-level header line not trim-equal to the marker. -/
theorem extractSection_concatenates_marker_sections :
    ∀ (target mk hdr : String) (a b rest : List String),
      goTrimSpace mk = target →
      (∀ l ∈ a, goTrimSpace l ≠ target ∧ goStartsWith l "* " = false) →
      (∀ l ∈ b, goTrimSpace l ≠ target ∧ goStartsWith l "* " = false) →
      goStartsWith hdr "* " = true →
      goTrimSpace hdr ≠ target →
      extractSection (some (mk :: (a ++ mk :: b))) target = a ++ b
      ∧ extractSection (some (mk :: (a ++ mk :: (b ++ hdr :: rest)))) target = a ++ b := by
  intro target mk hdr a b rest hmk ha hb hh1 hh2
  have hbclean : scanSection target b true = b := by
    have h := scanSection_true_append_clean target b [] hb
    simpa [scanSection] using h
  constructor
  · show scanSection target (mk :: (a ++ mk :: b)) false = a ++ b
    simp only [scanSection, hmk, if_pos]
    rw [scanSection_true_append_clean target a (mk :: b) ha,
      scanSection_true_marker_skip target mk b hmk, hbclean]
  · show scanSection target (mk :: (a ++ mk :: (b ++ hdr :: rest))) false = a ++ b
    simp only [scanSection, hmk, if_pos]
    rw [scanSection_true_append_clean target a (mk :: (b ++ hdr :: rest)) ha,
      scanSection_true_marker_skip target mk (b ++ hdr :: rest) hmk,
      scanSection_true_append_clean target b (hdr :: rest) hb,
      scanSection_true_header_stop target hdr rest hh1 hh2]
    simp

/-- Witness for claim C10 at a concrete file. -/
theorem extractSection_concatenates_marker_sections_witness :
    (goTrimSpace "* For tomorrow" = "* For tomorrow"
      ∧ (∀ l ∈ ["- task1"], goTrimSpace l ≠ "* For tomorrow" ∧ goStartsWith l "* " = false)
      ∧ (∀ l ∈ ["- task2"], goTrimSpace l ≠ "* For tomorrow" ∧ goStartsWith l "* " = false)
      ∧ goStartsWith "* Done" "* " = true
      ∧ goTrimSpace "* Done" ≠ "* For tomorrow")
    ∧ (extractSection
          (some ("* For tomorrow" :: (["- task1"] ++ "* For tomorrow" :: ["- task2"])))
          "* For tomorrow" = ["- task1"] ++ ["- task2"]
        ∧ extractSection
            (some ("* For tomorrow" ::
              (["- task1"] ++ "* For tomorrow" :: (["- task2"] ++ "* Done" :: ["old"]))))
            "* For tomorrow" = ["- task1"] ++ ["- task2"]) :=
  ⟨⟨by decide, by decide, by decide, by decide, by decide⟩,
    extractSection_concatenates_marker_sections "* For tomorrow" "* For tomorrow" "* Done"
      ["- task1"] ["- task2"] ["old"]
      (by decide) (by decide) (by decide) (by decide) (by decide)⟩

/-- Claim C7: a missing or unreadable reference note yields an empty
extraction result rather than an error, and the workflow still materializes
today's note, with the placeholder body (migration silently skipped). -/
theorem extractSection_missing_reference :
    ∀ (m : String) (fs : FS) (t y d : String) (st : ProjState),
      fsLookup fs.files y = none →
      extractSection (fsLookup fs.files y) m = []
      ∧ ((createDailyNote fs t y d st).2.2 = true →
          fsLookup (createDailyNote fs t y d st).1.files t = some (noteLines d [])) := by
  intro m fs t y d st hy
  constructor
  · rw [hy]
    rfl
  · intro hcreated
    cases hlk : fsLookup fs.files t with
    | some c => simp [createDailyNote, hlk] at hcreated
    | none =>
      by_cases hcf : t ∈ fs.createFails
      · simp [createDailyNote, hlk, hcf] at hcreated
      · simp [createDailyNote, hlk, hcf, hy, fsWrite, fsLookup]

/-- Witness for claim C7 at a concrete filesystem with no reference note. -/
theorem extractSection_missing_reference_witness :
    fsLookup (FS.files ⟨[], []⟩) "p/2024-01-01.org" = none
    ∧ (extractSection (fsLookup (FS.files ⟨[], []⟩) "p/2024-01-01.org") "* For tomorrow" = []
      ∧ ((createDailyNote ⟨[], []⟩ "p/2024-01-02.org" "p/2024-01-01.org" "2024-01-02"
            ⟨"", ""⟩).2.2 = true →
          fsLookup (createDailyNote ⟨[], []⟩ "p/2024-01-02.org" "p/2024-01-01.org" "2024-01-02"
            ⟨"", ""⟩).1.files "p/2024-01-02.org" = some (noteLines "2024-01-02" []))) :=
  ⟨by decide,
    extractSection_missing_reference "* For tomorrow" ⟨[], []⟩ "p/2024-01-02.org"
      "p/2024-01-01.org" "2024-01-02" ⟨"", ""⟩ (by decide)⟩

/-- Claim C1: when a file already exists at todayPath, createDailyNote is a
no-op — the filesystem (hence the existing file) and the linkage fields are
returned unchanged and no create happens; and after any call that did create
the note, an immediately repeated call changes nothing and creates nothing,
so two calls in succession perform exactly one file-write. -/
theorem createDailyNote_idempotent :
    ∀ (fs : FS) (t y d : String) (st : ProjState) (r : FS × ProjState × Bool),
      createDailyNote fs t y d st = r →
      ((fsLookup fs.files t).isSome = true → r = (fs, st, false))
      ∧ (r.2.2 = true → createDailyNote r.1 t y d r.2.1 = (r.1, r.2.1, false)) := by
  intro fs t y d st r hr
  constructor
  · intro hsome
    obtain ⟨c, hlk⟩ := Option.isSome_iff_exists.mp hsome
    rw [← hr]
    simp [createDailyNote, hlk]
  · intro htrue
    cases hlk : fsLookup fs.files t with
    | some c =>
      have hre : r = (fs, st, false) := by
        rw [← hr]
        simp [createDailyNote, hlk]
      rw [hre] at htrue
      simp at htrue
    | none =>
      by_cases hcf : t ∈ fs.createFails
      · have hre : r = (fs, st, false) := by
          rw [← hr]
          simp [createDailyNote, hlk, hcf]
        rw [hre] at htrue
        simp at htrue
      · simp only [createDailyNote, hlk, hcf, if_neg, ite_false] at hr
        rw [← hr]
        simp [createDailyNote, fsWrite, fsLookup]

/-- Witness for claim C1: the second call after a creating call is a no-op. -/
theorem createDailyNote_idempotent_witness :
    createDailyNote ⟨[], []⟩ "p/2024-01-02.org" "p/2024-01-01.org" "2024-01-02" ⟨"", ""⟩ =
      (⟨[("p/2024-01-02.org", noteLines "2024-01-02" [])], []⟩, ⟨"p/2024-01-02.org", ""⟩, true)
    ∧ (((fsLookup (FS.files ⟨[], []⟩) "p/2024-01-02.org").isSome = true →
          ((⟨[("p/2024-01-02.org", noteLines "2024-01-02" [])], []⟩, ⟨"p/2024-01-02.org", ""⟩,
              true) : FS × ProjState × Bool) = (⟨[], []⟩, ⟨"", ""⟩, false))
      ∧ (((⟨[("p/2024-01-02.org", noteLines "2024-01-02" [])], []⟩, ⟨"p/2024-01-02.org", ""⟩,
              true) : FS × ProjState × Bool).2.2 = true →
          createDailyNote ⟨[("p/2024-01-02.org", noteLines "2024-01-02" [])], []⟩
              "p/2024-01-02.org" "p/2024-01-01.org" "2024-01-02" ⟨"p/2024-01-02.org", ""⟩ =
            (⟨[("p/2024-01-02.org", noteLines "2024-01-02" [])], []⟩, ⟨"p/2024-01-02.org", ""⟩,
              false))) :=
  ⟨by decide,
    createDailyNote_idempotent ⟨[], []⟩ "p/2024-01-02.org" "p/2024-01-01.org" "2024-01-02"
      ⟨"", ""⟩
      (⟨[("p/2024-01-02.org", noteLines "2024-01-02" [])], []⟩, ⟨"p/2024-01-02.org", ""⟩, true)
      (by decide)⟩

/-- Claim C5: whenever createDailyNote creates the note, the linkage fields
are shifted: previousFileCreated receives the old lastFileCreated and
lastFileCreated becomes todayPath. -/
theorem createDailyNote_linkage_shift :
    ∀ (fs : FS) (t y d : String) (st : ProjState) (fs1 : FS) (st1 : ProjState),
      createDailyNote fs t y d st = (fs1, st1, true) →
      st1.lastFileCreated = t ∧ st1.previousFileCreated = st.lastFileCreated := by
  intro fs t y d st fs1 st1 h
  cases hlk : fsLookup fs.files t with
  | some c => simp [createDailyNote, hlk] at h
  | none =>
    by_cases hcf : t ∈ fs.createFails
    · simp [createDailyNote, hlk, hcf] at h
    · simp only [createDailyNote, hlk, hcf, if_neg, ite_false, Prod.mk.injEq] at h
      rw [← h.2.1]
      exact ⟨rfl, rfl⟩

/-- Witness for claim C5 at the spec's example state. -/
theorem createDailyNote_linkage_shift_witness :
    createDailyNote ⟨[], []⟩ "2024-01-02.org" "2024-01-01.org" "2024-01-02"
        ⟨"2024-01-01.org", ""⟩ =
      (⟨[("2024-01-02.org", noteLines "2024-01-02" [])], []⟩,
        ⟨"2024-01-02.org", "2024-01-01.org"⟩, true)
    ∧ (ProjState.lastFileCreated ⟨"2024-01-02.org", "2024-01-01.org"⟩ = "2024-01-02.org"
      ∧ ProjState.previousFileCreated ⟨"2024-01-02.org", "2024-01-01.org"⟩ =
          ProjState.lastFileCreated ⟨"2024-01-01.org", ""⟩) :=
  ⟨by decide,
    createDailyNote_linkage_shift ⟨[], []⟩ "2024-01-02.org" "2024-01-01.org" "2024-01-02"
      ⟨"2024-01-01.org", ""⟩ ⟨[("2024-01-02.org", noteLines "2024-01-02" [])], []⟩
      ⟨"2024-01-02.org", "2024-01-01.org"⟩ (by decide)⟩

/-- Claim C6: when the note file cannot be created, createDailyNote returns
with the filesystem and both linkage fields unchanged and without retrying
(the single call performs no write at all). -/
theorem createDailyNote_create_failure :
    ∀ (fs : FS) (t y d : String) (st : ProjState),
      fsLookup fs.files t = none → t ∈ fs.createFails →
      createDailyNote fs t y d st = (fs, st, false) := by
  intro fs t y d st hlk hcf
  simp [createDailyNote, hlk, hcf]

/-- Witness for claim C6 at a filesystem where creating the note fails. -/
theorem createDailyNote_create_failure_witness :
    fsLookup (FS.files ⟨[], ["p/2024-01-02.org"]⟩) "p/2024-01-02.org" = none
    ∧ "p/2024-01-02.org" ∈ FS.createFails ⟨[], ["p/2024-01-02.org"]⟩
    ∧ createDailyNote ⟨[], ["p/2024-01-02.org"]⟩ "p/2024-01-02.org" "p/2024-01-01.org"
        "2024-01-02" ⟨"a", "b"⟩ = (⟨[], ["p/2024-01-02.org"]⟩, ⟨"a", "b"⟩, false) :=
  ⟨by decide, by decide,
    createDailyNote_create_failure ⟨[], ["p/2024-01-02.org"]⟩ "p/2024-01-02.org"
      "p/2024-01-01.org" "2024-01-02" ⟨"a", "b"⟩ (by decide) (by decide)⟩

/-- Claim C4, counterexample: the file createDailyNote writes has an empty
line between the title line and the to-do marker line, so it is not the
claimed enumeration title, to-do marker, body, blank, unfinished marker. -/
theorem createDailyNote_layout_counterexample :
    fsLookup (createDailyNote ⟨[], []⟩ "2024-01-02.org" "2024-01-01.org" "2024-01-02"
        ⟨"", ""⟩).1.files "2024-01-02.org" =
      some ["#+TITLE: Daily Note 2024-01-02", "", "* TODO", "  [ ] ", "", "* For tomorrow"]
    ∧ noteLinesClaimed "2024-01-02" [] =
        ["#+TITLE: Daily Note 2024-01-02", "* TODO", "  [ ] ", "", "* For tomorrow"]
    ∧ fsLookup (createDailyNote ⟨[], []⟩ "2024-01-02.org" "2024-01-01.org" "2024-01-02"
        ⟨"", ""⟩).1.files "2024-01-02.org" ≠ some (noteLinesClaimed "2024-01-02" []) := by
  refine ⟨by decide, by decide, by decide⟩

/-- Claim C4 (amended): whenever createDailyNote creates the note, the written
file is, in order: the title line embedding the date, an empty line, the
to-do marker line, then the migrated unfinished-work lines verbatim or the
single empty checkbox placeholder line when nothing was migrated, then a
blank line, then the unfinished-work marker line left empty. -/
theorem createDailyNote_layout :
    ∀ (fs : FS) (t y d : String) (st : ProjState),
      (createDailyNote fs t y d st).2.2 = true →
      fsLookup (createDailyNote fs t y d st).1.files t =
        some (["#+TITLE: Daily Note " ++ d, "", DestinationHeader] ++
          (if extractSection (fsLookup fs.files y) SourceHeader = [] then ["  [ ] "]
            else extractSection (fsLookup fs.files y) SourceHeader) ++ ["", SourceHeader]) := by
  intro fs t y d st hcreated
  cases hlk : fsLookup fs.files t with
  | some c => simp [createDailyNote, hlk] at hcreated
  | none =>
    by_cases hcf : t ∈ fs.createFails
    · simp [createDailyNote, hlk, hcf] at hcreated
    · cases hy : fsLookup fs.files y with
      | none =>
        simp [createDailyNote, hlk, hcf, hy, fsWrite, fsLookup, noteLines, noteBody,
          extractSection]
      | some c =>
        simp [createDailyNote, hlk, hcf, hy, fsWrite, fsLookup, noteLines, noteBody]

/-- Witness for claim C4 on a reference note carrying two unfinished tasks. -/
theorem createDailyNote_layout_witness :
    (createDailyNote
        ⟨[("2024-01-01.org", ["* TODO", "x", "* For tomorrow", "- task1", "- task2"])], []⟩
        "2024-01-02.org" "2024-01-01.org" "2024-01-02" ⟨"2024-01-01.org", ""⟩).2.2 = true
    ∧ fsLookup (createDailyNote
        ⟨[("2024-01-01.org", ["* TODO", "x", "* For tomorrow", "- task1", "- task2"])], []⟩
        "2024-01-02.org" "2024-01-01.org" "2024-01-02" ⟨"2024-01-01.org", ""⟩).1.files
        "2024-01-02.org" =
      some (["#+TITLE: Daily Note " ++ "2024-01-02", "", DestinationHeader] ++
        (if extractSection
              (fsLookup
                (FS.files
                  ⟨[("2024-01-01.org", ["* TODO", "x", "* For tomorrow", "- task1", "- task2"])],
                    []⟩) "2024-01-01.org") SourceHeader = [] then ["  [ ] "]
          else extractSection
              (fsLookup
                (FS.files
                  ⟨[("2024-01-01.org", ["* TODO", "x", "* For tomorrow", "- task1", "- task2"])],
                    []⟩) "2024-01-01.org") SourceHeader) ++ ["", SourceHeader]) :=
  ⟨by decide,
    createDailyNote_layout
      ⟨[("2024-01-01.org", ["* TODO", "x", "* For tomorrow", "- task1", "- task2"])], []⟩
      "2024-01-02.org" "2024-01-01.org" "2024-01-02" ⟨"2024-01-01.org", ""⟩ (by decide)⟩

/-- Claim C3, counterexample: with an attach that never succeeds, the loop
makes 5 attempts (the initial openEmacs call plus the 4 retries of the
for-loop), not the claimed 4. -/
theorem attachRetryLoop_counterexample :
    attachRetryLoop (fun _ => false) = (false, 5, 4)
    ∧ (attachRetryLoop (fun _ => false)).2.1 ≠ 4 := by
  refine ⟨by decide, by decide⟩

/-- Claim C3 (amended): when no attach attempt ever succeeds, the workflow
makes exactly 5 attach attempts — one initial attempt plus 4 retries — with
one fixed-delay sleep before each retry (4 sleeps, one between each pair of
consecutive attempts), and then reports failure without crashing. -/
theorem attachRetryLoop_exhaustion :
    ∀ attach : Nat → Bool, (∀ n, attach n = false) →
      attachRetryLoop attach = (false, 5, 4) := by
  intro attach h
  simp [attachRetryLoop, retryGo, h]

/-- Witness for claim C3 with the constantly failing attach. -/
theorem attachRetryLoop_exhaustion_witness :
    (∀ n : Nat, (fun _ : Nat => false) n = false)
    ∧ attachRetryLoop (fun _ : Nat => false) = (false, 5, 4) :=
  ⟨fun _ => rfl, attachRetryLoop_exhaustion (fun _ => false) (fun _ => rfl)⟩

/-- Claim C8, counterexample: the scanning loop sends one readiness message
per stderr line containing the marker substring, so a stream with two
matching lines produces two signals, not exactly one; the code also has no
timeout outcome at all. -/
theorem runEmacsDaemon_double_signal_counterexample :
    runEmacsDaemon true ["Doom loaded 28.2", "noise", "Doom loaded again"] =
      DaemonOutcome.finished [SuccessMsg, SuccessMsg]
    ∧ ([SuccessMsg, SuccessMsg] : List String).length ≠ 1 := by
  refine ⟨by decide, by decide⟩

/-- Claim C8 (amended): for every finite diagnostic stream, the monitor (when
its log-file setup succeeds) completes with one Ready signal sent per line
containing the marker substring anywhere in it — so at least one signal is
sent exactly when some line matches — and no signal at all, in particular no
timeout signal, when no line matches: the code has no maxWait. -/
theorem runEmacsDaemon_signals :
    ∀ stderrLines : List String,
      runEmacsDaemon true stderrLines = DaemonOutcome.finished (daemonSignals stderrLines)
      ∧ daemonSignals stderrLines =
          List.replicate (stderrLines.countP fun l => goContains l DoomLoadedMsg) SuccessMsg
      ∧ (daemonSignals stderrLines = [] ↔
          ∀ l ∈ stderrLines, goContains l DoomLoadedMsg = false) := by
  intro ls
  refine ⟨rfl, ?_, ?_⟩
  · induction ls with
    | nil => rfl
    | cons l ls ih =>
      by_cases h : goContains l DoomLoadedMsg = true
      · simp [daemonSignals, List.filter_cons, List.countP_cons, h, List.replicate_succ] at ih ⊢
        exact ih
      · simp [daemonSignals, List.filter_cons, List.countP_cons, h] at ih ⊢
        exact ih
  · induction ls with
    | nil => simp [daemonSignals]
    | cons l ls ih =>
      by_cases h : goContains l DoomLoadedMsg = true
      · simp [daemonSignals, List.filter_cons, h]
      · simp [daemonSignals, List.filter_cons, h] at ih ⊢

/-- Claim C9: runEmacsDaemon calls panic when its hard-coded log file cannot
be created, evaluated here at such a failing input; since it runs in a
goroutine, the panic aborts the whole host process, contradicting the spec's
requirement (which the spec itself flags as a code defect to eliminate). -/
theorem runEmacsDaemon_panics_on_log_failure :
    runEmacsDaemon false ["Doom loaded 28.2"] = DaemonOutcome.panicked := rfl
